import Mathlib

/-!
Shallow embedding of the RCM-Analyzer calculator client.

Sources:
* `src/app/features/calculator/services/calculator.service.ts`
  (`CalculatorService`: `calculateMetrics`, `generateMockCalculation`,
  `estimateDenialRate`, `validateLocation`), and
* the calculator component (`CalculatorComponent`: `generateMockCalculation`,
  `estimateDenialRate`, `zipCodeValidator`, `nextStep`, `previousStep`,
  `validateCurrentStep`, `getStepFields`, `resetCalculator`).

Modelling conventions:
* JS numbers are modelled as `ℚ`; `parseInt` results as `Option ℤ` and
  `parseFloat` results as `Option ℚ` (`none` = `NaN`, i.e. the field was
  missing or unparseable).
* The JS idiom `parse...(x) || d` defaults on every falsy value, so both
  `NaN` and `0` fall back to `d`; `jsOrInt` / `jsOrRat` capture this.
* `Math.round x` is `⌊x + 1/2⌋` (JS rounds half toward +∞).
* Division is `ℚ` division, total with `x / 0 = 0`; the source performs the
  same division unguarded (in JS it would yield `Infinity`/`NaN` there).
* The randomized `nearbyProviders` list (built with `Math.random`) is outside
  the deterministic embedding; the claims only concern `userMetrics` and the
  constant `benchmarkMetrics`.
-/

namespace RCM

/-- The JS default idiom `v || d` applied to a `parseInt` result:
`NaN` (here `none`) and `0` are falsy and fall back to the default. -/
def jsOrInt (v : Option ℤ) (d : ℤ) : ℤ :=
  match v with
  | none => d
  | some x => if x = 0 then d else x

/-- The JS default idiom `v || d` applied to a `parseFloat` result:
`NaN` (here `none`) and `0` are falsy and fall back to the default. -/
def jsOrRat (v : Option ℚ) (d : ℚ) : ℚ :=
  match v with
  | none => d
  | some x => if x = 0 then d else x

/-- JS `Math.round`: rounds to the nearest integer, halves toward `+∞`. -/
def jsRound (x : ℚ) : ℤ := ⌊x + 1 / 2⌋

/-- Rounding to one decimal place: `Math.round(x * 10) / 10`. -/
def round1 (x : ℚ) : ℚ := (jsRound (x * 10) : ℚ) / 10

/-- Rounding to two decimal places: `Math.round(x * 100) / 100`. -/
def round2 (x : ℚ) : ℚ := (jsRound (x * 100) : ℚ) / 100

/-- The flat record of form fields read by `generateMockCalculation`
(the `createForm` control names of the component).  Numeric fields hold the
result of the `parseInt`/`parseFloat` the calculation applies to them. -/
structure FormData where
  address : String := ""
  pincode : String := ""
  specialty : String := ""
  patientVolume : Option ℤ := none
  volumePeriod : String := "monthly"
  billingAverage : Option ℚ := none
  collectionRate : Option ℚ := none
  paymentTime : Option ℤ := none
  knowDenialRate : String := ""
  denialRate : Option ℚ := none
  processingType : String := ""
  staffWages : Option ℚ := none
  wageType : String := "monthly"
  staffCount : Option ℤ := none
  outsourcePricing : String := ""
  percentageValue : Option ℚ := none
  perClaimValue : Option ℚ := none
  monthlyValue : Option ℚ := none
  hourlyValue : Option ℚ := none

/-- The `userMetrics` record of `CalculationResult`. -/
structure UserMetrics where
  averageClaimPercentage : ℚ
  claimDenialRate : ℚ
  costPerClaim : ℚ
  totalMonthlyClaims : ℤ
  monthlyRevenue : ℤ
  monthlyProcessingCost : ℤ
deriving DecidableEq, Repr

/-- The `benchmarkMetrics` record of `CalculationResult` (fixed constants). -/
structure BenchmarkMetrics where
  berserkClaimPercentage : ℚ
  berserkCostPerClaim : ℚ
  industryAverage : ℚ
deriving DecidableEq, Repr

/-- The deterministic part of `CalculationResult` (the randomized
`nearbyProviders` list is not modelled). -/
structure CalculationResult where
  userMetrics : UserMetrics
  benchmarkMetrics : BenchmarkMetrics
deriving DecidableEq, Repr

/-- The regex `^\d{5}(-\d{4})?$` (US ZIP code, 5 digits or 5+4 format),
as a predicate on the character list of the string. -/
def matchesUsZip (s : String) : Bool :=
  match s.data with
  | [c1, c2, c3, c4, c5] =>
      c1.isDigit && c2.isDigit && c3.isDigit && c4.isDigit && c5.isDigit
  | [c1, c2, c3, c4, c5, dash, c6, c7, c8, c9] =>
      c1.isDigit && c2.isDigit && c3.isDigit && c4.isDigit && c5.isDigit &&
      dash = '-' && c6.isDigit && c7.isDigit && c8.isDigit && c9.isDigit
  | _ => false

/-- The regex `^\d{6}$` (Indian PIN code, 6 digits). -/
def matchesIndianPin (s : String) : Bool :=
  match s.data with
  | [c1, c2, c3, c4, c5, c6] =>
      c1.isDigit && c2.isDigit && c3.isDigit && c4.isDigit && c5.isDigit &&
      c6.isDigit
  | _ => false

namespace CalculatorService

/-- The object-literal lookup `denialRates[specialty]` of
`CalculatorService.estimateDenialRate` (lines 125-136). -/
def denialRatesLookup (specialty : String) : Option ℚ :=
  if specialty = "family_medicine" then some 7.2
  else if specialty = "internal_medicine" then some 8.1
  else if specialty = "pediatrics" then some 6.8
  else if specialty = "cardiology" then some 9.3
  else if specialty = "dermatology" then some 5.9
  else if specialty = "orthopedics" then some 10.2
  else if specialty = "dentistry" then some 4.5
  else if specialty = "ophthalmology" then some 6.7
  else if specialty = "psychiatry" then some 8.9
  else if specialty = "other" then some 8.0
  else none

/-- Source `CalculatorService.estimateDenialRate`: `denialRates[specialty] || 8.0`. -/
def estimateDenialRate (specialty : String) : ℚ :=
  jsOrRat (denialRatesLookup specialty) 8.0

/-- Extraction `const patientVolume = parseInt(formData.patientVolume) || 100`. -/
def extractPatientVolume (f : FormData) : ℤ := jsOrInt f.patientVolume 100

/-- Extraction `const billingAverage = parseFloat(formData.billingAverage) || 150`. -/
def extractBillingAverage (f : FormData) : ℚ := jsOrRat f.billingAverage 150

/-- Extraction `const collectionRate = parseFloat(formData.collectionRate) || 85`. -/
def extractCollectionRate (f : FormData) : ℚ := jsOrRat f.collectionRate 85

/-- Extraction `const denialRate = formData.knowDenialRate === "yes" ?
parseFloat(formData.denialRate) || 8 : this.estimateDenialRate(formData.specialty)`. -/
def extractDenialRate (f : FormData) : ℚ :=
  if f.knowDenialRate = "yes" then jsOrRat f.denialRate 8
  else estimateDenialRate f.specialty

/-- Derived `monthlyPatients`: the patient volume scaled by the volume period
(`* 30` if daily, `* 4` if weekly, unchanged otherwise). -/
def monthlyPatients (f : FormData) : ℤ :=
  if f.volumePeriod = "daily" then extractPatientVolume f * 30
  else if f.volumePeriod = "weekly" then extractPatientVolume f * 4
  else extractPatientVolume f

/-- Derived `const monthlyRevenue = monthlyPatients * billingAverage * (collectionRate / 100)`. -/
def monthlyRevenueVal (f : FormData) : ℚ :=
  (monthlyPatients f : ℚ) * extractBillingAverage f * (extractCollectionRate f / 100)

/-- Derived `const totalMonthlyClaims = monthlyPatients`. -/
def totalMonthlyClaimsVal (f : FormData) : ℤ := monthlyPatients f

/-- Lookup `formData[pricingType + "Value"]`: the pricing-value field selected by
`outsourcePricing`; any other key reads an absent property (`undefined`,
which `parseFloat` turns into `NaN`, here `none`). -/
def pricingValueField (f : FormData) : Option ℚ :=
  if f.outsourcePricing = "percentage" then f.percentageValue
  else if f.outsourcePricing = "perClaim" then f.perClaimValue
  else if f.outsourcePricing = "monthly" then f.monthlyValue
  else if f.outsourcePricing = "hourly" then f.hourlyValue
  else none

/-- The `monthlyProcessingCost` decision table (service lines 69-94):
in-house wages (hourly `× 160` or monthly) times staff count, or one of the
four outsourcing pricing formulas; `0` when no branch matches. -/
def monthlyProcessingCostVal (f : FormData) : ℚ :=
  if f.processingType = "inhouse" then
    let staffWages := jsOrRat f.staffWages 4000
    let staffCount := jsOrInt f.staffCount 2
    if f.wageType = "hourly" then staffWages * 160 * (staffCount : ℚ)
    else staffWages * (staffCount : ℚ)
  else if f.processingType = "outsource" then
    let pricingValue := jsOrRat (pricingValueField f) 0
    if f.outsourcePricing = "percentage" then
      monthlyRevenueVal f * (pricingValue / 100)
    else if f.outsourcePricing = "perClaim" then
      (totalMonthlyClaimsVal f : ℚ) * pricingValue
    else if f.outsourcePricing = "monthly" then pricingValue
    else if f.outsourcePricing = "hourly" then pricingValue * 160
    else 0
  else 0

/-- Derived `const costPerClaim = monthlyProcessingCost / totalMonthlyClaims`
(unguarded division, as in the source). -/
def costPerClaimVal (f : FormData) : ℚ :=
  monthlyProcessingCostVal f / (totalMonthlyClaimsVal f : ℚ)

/-- Derived `const averageClaimPercentage = Math.max(60, Math.min(98, 100 - denialRate))`. -/
def averageClaimPercentageVal (f : FormData) : ℚ :=
  max 60 (min 98 (100 - extractDenialRate f))

/-- Source `CalculatorService.generateMockCalculation` (deterministic part):
derives the rounded `userMetrics` and the constant `benchmarkMetrics`. -/
def generateMockCalculation (f : FormData) : CalculationResult :=
  { userMetrics :=
      { averageClaimPercentage := round1 (averageClaimPercentageVal f)
        claimDenialRate := round1 (extractDenialRate f)
        costPerClaim := round2 (costPerClaimVal f)
        totalMonthlyClaims := jsRound (totalMonthlyClaimsVal f : ℚ)
        monthlyRevenue := jsRound (monthlyRevenueVal f)
        monthlyProcessingCost := jsRound (monthlyProcessingCostVal f) }
    benchmarkMetrics :=
      { berserkClaimPercentage := 96.5
        berserkCostPerClaim := 12.50
        industryAverage := 92.0 } }

/-- Source `CalculatorService.calculateMetrics`: wraps the mock calculation in a
`try`/`catch` that rethrows `"Failed to calculate metrics"`; the body is the
total function `generateMockCalculation`, so the happy path always returns. -/
def calculateMetrics (f : FormData) : Except String CalculationResult :=
  Except.ok (generateMockCalculation f)

/-- Source `CalculatorService.validateLocation`:
`usZipPattern.test(pincode) || indianPinPattern.test(pincode)`. -/
def validateLocation (pincode : String) : Bool :=
  matchesUsZip pincode || matchesIndianPin pincode

end CalculatorService

namespace CalculatorComponent

/-- Source `CalculatorComponent.estimateDenialRate` (component lines 561-577),
a verbatim duplicate of the service lookup: `denialRates[specialty] || 8.0`. -/
def estimateDenialRate (specialty : String) : ℚ :=
  jsOrRat
    (if specialty = "family_medicine" then some 7.2
     else if specialty = "internal_medicine" then some 8.1
     else if specialty = "pediatrics" then some 6.8
     else if specialty = "cardiology" then some 9.3
     else if specialty = "dermatology" then some 5.9
     else if specialty = "orthopedics" then some 10.2
     else if specialty = "dentistry" then some 4.5
     else if specialty = "ophthalmology" then some 6.7
     else if specialty = "psychiatry" then some 8.9
     else if specialty = "other" then some 8.0
     else none)
    8.0

/-- Source `CalculatorComponent.generateMockCalculation` (component lines
460-559, deterministic part), transcribed independently of the service copy;
the component returns a fixed (non-randomized) provider list, which is
outside the `userMetrics`/`benchmarkMetrics` embedding. -/
def generateMockCalculation (f : FormData) : CalculationResult :=
  let patientVolume := jsOrInt f.patientVolume 100
  let billingAverage := jsOrRat f.billingAverage 150
  let collectionRate := jsOrRat f.collectionRate 85
  let denialRate :=
    if f.knowDenialRate = "yes" then jsOrRat f.denialRate 8
    else estimateDenialRate f.specialty
  let monthlyPatients :=
    if f.volumePeriod = "daily" then patientVolume * 30
    else if f.volumePeriod = "weekly" then patientVolume * 4
    else patientVolume
  let monthlyRevenue := (monthlyPatients : ℚ) * billingAverage * (collectionRate / 100)
  let totalMonthlyClaims := monthlyPatients
  let monthlyProcessingCost : ℚ :=
    if f.processingType = "inhouse" then
      let staffWages := jsOrRat f.staffWages 4000
      let staffCount := jsOrInt f.staffCount 2
      if f.wageType = "hourly" then staffWages * 160 * (staffCount : ℚ)
      else staffWages * (staffCount : ℚ)
    else if f.processingType = "outsource" then
      let pricingValue :=
        jsOrRat
          (if f.outsourcePricing = "percentage" then f.percentageValue
           else if f.outsourcePricing = "perClaim" then f.perClaimValue
           else if f.outsourcePricing = "monthly" then f.monthlyValue
           else if f.outsourcePricing = "hourly" then f.hourlyValue
           else none)
          0
      if f.outsourcePricing = "percentage" then monthlyRevenue * (pricingValue / 100)
      else if f.outsourcePricing = "perClaim" then (totalMonthlyClaims : ℚ) * pricingValue
      else if f.outsourcePricing = "monthly" then pricingValue
      else if f.outsourcePricing = "hourly" then pricingValue * 160
      else 0
    else 0
  let costPerClaim := monthlyProcessingCost / (totalMonthlyClaims : ℚ)
  let averageClaimPercentage := max 60 (min 98 (100 - denialRate))
  { userMetrics :=
      { averageClaimPercentage := round1 averageClaimPercentage
        claimDenialRate := round1 denialRate
        costPerClaim := round2 costPerClaim
        totalMonthlyClaims := jsRound (totalMonthlyClaims : ℚ)
        monthlyRevenue := jsRound monthlyRevenue
        monthlyProcessingCost := jsRound monthlyProcessingCost }
    benchmarkMetrics :=
      { berserkClaimPercentage := 96.5
        berserkCostPerClaim := 12.50
        industryAverage := 92.0 } }

/-- Source `CalculatorComponent.zipCodeValidator` (component lines 216-229):
a falsy (empty) control value yields no error; otherwise the value must match
the US ZIP or Indian PIN regex.  `true` means the control passes (the source
returns `null`); `false` means it reports the `pattern` error. -/
def zipCodeValidator (value : String) : Bool :=
  if value = "" then true
  else matchesUsZip value || matchesIndianPin value

/-- Source `CalculatorComponent.getStepFields` (component lines 317-328):
the control names validated at each step; steps outside 1-3 have none. -/
def getStepFields (step : ℤ) : List String :=
  if step = 1 then ["address", "pincode", "specialty"]
  else if step = 2 then ["patientVolume", "billingAverage", "collectionRate", "paymentTime"]
  else if step = 3 then ["processingType"]
  else []

/-- Source `CalculatorComponent.validateCurrentStep` (component lines
300-315): every field of the current step must be valid.  The form is
abstracted by the validity snapshot `valid : String → Bool` (which control
names currently hold valid values); `markAsTouched` does not change
validity and is not modelled. -/
def validateCurrentStep (valid : String → Bool) (step : ℤ) : Bool :=
  (getStepFields step).all valid

/-- Source `CalculatorComponent.nextStep` (component lines 282-290):
increments `currentStep` when the current step validates, else leaves it
(and only highlights errors). -/
def nextStep (valid : String → Bool) (step : ℤ) : ℤ :=
  if validateCurrentStep valid step then step + 1 else step

/-- Source `CalculatorComponent.previousStep` (component lines 292-298):
decrements `currentStep` only when it exceeds 1. -/
def previousStep (step : ℤ) : ℤ :=
  if 1 < step then step - 1 else step

/-- The step-changing user actions of the component: pressing next, pressing
back, and `resetCalculator` (component lines 643-650, which sets
`currentStep = 1`). -/
inductive StepOp where
  | next
  | prev
  | reset
deriving DecidableEq, Repr

/-- Effect of one user action on `currentStep`. -/
def stepAfter (valid : String → Bool) (step : ℤ) : StepOp → ℤ
  | StepOp.next => nextStep valid step
  | StepOp.prev => previousStep step
  | StepOp.reset => 1

/-- Value of `currentStep` after a sequence of user actions, under a fixed
form-validity snapshot. -/
def runSteps (valid : String → Bool) (ops : List StepOp) (start : ℤ) : ℤ :=
  ops.foldl (stepAfter valid) start

end CalculatorComponent

/-! Helper lemmas about JS rounding, and the concrete form inputs used to
exercise the calculation. -/

/-- Characterisation of `jsRound` by the floor bounds. -/
lemma jsRound_eq {x : ℚ} {n : ℤ} (h1 : (n : ℚ) ≤ x + 1 / 2) (h2 : x + 1 / 2 < n + 1) :
    jsRound x = n := by
  rw [jsRound]
  exact Int.floor_eq_iff.mpr ⟨h1, h2⟩

/-- Rounding to one decimal place does not go below an integer lower bound. -/
lemma le_round1 {b : ℤ} {x : ℚ} (h : (b : ℚ) ≤ x) : (b : ℚ) ≤ round1 x := by
  have hf : b * 10 ≤ ⌊x * 10 + 1 / 2⌋ := by
    refine Int.le_floor.mpr ?_
    push_cast
    linarith
  rw [round1, jsRound, le_div_iff₀ (by norm_num : (0 : ℚ) < 10)]
  exact_mod_cast hf

/-- Rounding to one decimal place does not exceed an integer upper bound. -/
lemma round1_le {b : ℤ} {x : ℚ} (h : x ≤ (b : ℚ)) : round1 x ≤ (b : ℚ) := by
  have hf : ⌊x * 10 + 1 / 2⌋ < b * 10 + 1 := by
    refine Int.floor_lt.mpr ?_
    push_cast
    linarith
  have hf' : ⌊x * 10 + 1 / 2⌋ ≤ b * 10 := Int.lt_add_one_iff.mp hf
  rw [round1, jsRound, div_le_iff₀ (by norm_num : (0 : ℚ) < 10)]
  exact_mod_cast hf'

/-- Evaluation of the specialty lookup when the key is present and the stored
rate is truthy (nonzero). -/
lemma estimateDenialRate_eval {s : String} {x : ℚ}
    (hl : CalculatorService.denialRatesLookup s = some x) (hx : x ≠ 0) :
    CalculatorService.estimateDenialRate s = x := by
  rw [CalculatorService.estimateDenialRate, hl]
  simp [jsOrRat, hx]

/-- Form input of the documented revenue example: `patientVolume=100`,
`volumePeriod=monthly`, `billingAverage=150`, `collectionRate=85`. -/
def inputVolume100 : FormData :=
  { patientVolume := some 100, volumePeriod := "monthly",
    billingAverage := some 150, collectionRate := some 85 }

/-- Form input of the documented in-house example: `processingType=inhouse`,
`wageType=monthly`, `staffWages=4000`, `staffCount=2`. -/
def inputInhouse : FormData :=
  { processingType := "inhouse", wageType := "monthly",
    staffWages := some 4000, staffCount := some 2 }

/-- Form input of the documented outsourcing example:
`processingType=outsource`, `outsourcePricing=perClaim`, `perClaimValue=5`,
with 100 monthly claims. -/
def inputOutsource : FormData :=
  { patientVolume := some 100, volumePeriod := "monthly",
    processingType := "outsource", outsourcePricing := "perClaim",
    perClaimValue := some 5 }

/-- Form input with the know-denial-rate flag set and a user-supplied denial
rate of `0`. -/
def inputDenialZero : FormData :=
  { knowDenialRate := "yes", denialRate := some 0 }

/-- Form input with the know-denial-rate flag set and a user-supplied denial
rate of `12`. -/
def inputDenialKnown : FormData :=
  { knowDenialRate := "yes", denialRate := some 12 }

/-- C1: for every form input the calculation scales the patient volume to a
monthly count (`× 30` for daily, `× 4` for weekly, unchanged otherwise),
reports it as `totalMonthlyClaims`, and reports the monthly revenue
`monthlyPatients × billingAverage × (collectionRate / 100)` (rounded to an
integer); on `patientVolume=100`, `volumePeriod=monthly`,
`billingAverage=150`, `collectionRate=85` the result has
`monthlyRevenue = 12750` and `totalMonthlyClaims = 100`. -/
theorem C1_monthly_count_and_revenue :
    (∀ f : FormData,
      CalculatorService.monthlyPatients f =
        (if f.volumePeriod = "daily" then CalculatorService.extractPatientVolume f * 30
         else if f.volumePeriod = "weekly" then CalculatorService.extractPatientVolume f * 4
         else CalculatorService.extractPatientVolume f) ∧
      (CalculatorService.generateMockCalculation f).userMetrics.monthlyRevenue =
        jsRound ((CalculatorService.monthlyPatients f : ℚ) *
          CalculatorService.extractBillingAverage f *
          (CalculatorService.extractCollectionRate f / 100)) ∧
      (CalculatorService.generateMockCalculation f).userMetrics.totalMonthlyClaims =
        jsRound ((CalculatorService.monthlyPatients f : ℚ))) ∧
    (CalculatorService.generateMockCalculation inputVolume100).userMetrics.monthlyRevenue
      = 12750 ∧
    (CalculatorService.generateMockCalculation inputVolume100).userMetrics.totalMonthlyClaims
      = 100 := by
  refine ⟨fun f => ⟨rfl, rfl, rfl⟩, ?_, ?_⟩
  · show jsRound (CalculatorService.monthlyRevenueVal inputVolume100) = 12750
    have h : CalculatorService.monthlyRevenueVal inputVolume100 = 12750 := by
      simp [CalculatorService.monthlyRevenueVal, CalculatorService.monthlyPatients,
        CalculatorService.extractPatientVolume, CalculatorService.extractBillingAverage,
        CalculatorService.extractCollectionRate, inputVolume100, jsOrInt,
        jsOrRat]; norm_num
    rw [h]
    exact jsRound_eq (by norm_num) (by norm_num)
  · show jsRound ((CalculatorService.totalMonthlyClaimsVal inputVolume100 : ℚ)) = 100
    have h : CalculatorService.totalMonthlyClaimsVal inputVolume100 = 100 := by decide
    rw [h]
    exact jsRound_eq (by norm_num) (by norm_num)

/-- C2: for every form input the monthly processing cost follows the decision
table of the source — in-house: wage `× 160 ×` staff count for hourly wages,
wage `×` staff count otherwise; outsourced: revenue percentage, per-claim,
flat monthly, or hourly `× 160` according to the pricing flag — and the two
documented cases give 8000 (in-house, monthly, 4000 × 2) and 500 (outsource,
per claim, 5 × 100). -/
theorem C2_processing_cost_table :
    (∀ f : FormData,
      (f.processingType = "inhouse" →
        CalculatorService.monthlyProcessingCostVal f =
          (if f.wageType = "hourly"
           then jsOrRat f.staffWages 4000 * 160 * (jsOrInt f.staffCount 2 : ℚ)
           else jsOrRat f.staffWages 4000 * (jsOrInt f.staffCount 2 : ℚ))) ∧
      (f.processingType = "outsource" →
        CalculatorService.monthlyProcessingCostVal f =
          (if f.outsourcePricing = "percentage"
           then CalculatorService.monthlyRevenueVal f *
             (jsOrRat (CalculatorService.pricingValueField f) 0 / 100)
           else if f.outsourcePricing = "perClaim"
           then (CalculatorService.totalMonthlyClaimsVal f : ℚ) *
             jsOrRat (CalculatorService.pricingValueField f) 0
           else if f.outsourcePricing = "monthly"
           then jsOrRat (CalculatorService.pricingValueField f) 0
           else if f.outsourcePricing = "hourly"
           then jsOrRat (CalculatorService.pricingValueField f) 0 * 160
           else 0)) ∧
      (CalculatorService.generateMockCalculation f).userMetrics.monthlyProcessingCost =
        jsRound (CalculatorService.monthlyProcessingCostVal f)) ∧
    (CalculatorService.generateMockCalculation inputInhouse).userMetrics.monthlyProcessingCost
      = 8000 ∧
    (CalculatorService.generateMockCalculation inputOutsource).userMetrics.monthlyProcessingCost
      = 500 ∧
    CalculatorService.totalMonthlyClaimsVal inputOutsource = 100 := by
  refine ⟨fun f => ⟨fun h => ?_, fun h => ?_, rfl⟩, ?_, ?_, by decide⟩
  · simp [CalculatorService.monthlyProcessingCostVal, h]
  · simp [CalculatorService.monthlyProcessingCostVal, h]
  · show jsRound (CalculatorService.monthlyProcessingCostVal inputInhouse) = 8000
    have h : CalculatorService.monthlyProcessingCostVal inputInhouse = 8000 := by
      simp [CalculatorService.monthlyProcessingCostVal, inputInhouse, jsOrInt,
        jsOrRat]; norm_num
    rw [h]
    exact jsRound_eq (by norm_num) (by norm_num)
  · show jsRound (CalculatorService.monthlyProcessingCostVal inputOutsource) = 500
    have h : CalculatorService.monthlyProcessingCostVal inputOutsource = 500 := by
      simp [CalculatorService.monthlyProcessingCostVal, CalculatorService.pricingValueField,
        CalculatorService.totalMonthlyClaimsVal, CalculatorService.monthlyPatients,
        CalculatorService.extractPatientVolume, inputOutsource, jsOrInt,
        jsOrRat]; norm_num
    rw [h]
    exact jsRound_eq (by norm_num) (by norm_num)

/-- C2 witness: the documented in-house and outsourcing cases, instantiating
the decision table at concrete inputs. -/
theorem C2_processing_cost_table_witness :
    inputInhouse.processingType = "inhouse" ∧
    CalculatorService.monthlyProcessingCostVal inputInhouse = 8000 ∧
    inputOutsource.processingType = "outsource" ∧
    CalculatorService.monthlyProcessingCostVal inputOutsource = 500 := by
  refine ⟨rfl, ?_, rfl, ?_⟩
  · have h := (C2_processing_cost_table.1 inputInhouse).1 rfl
    rw [h]
    simp [inputInhouse, jsOrInt, jsOrRat]; norm_num
  · have h := (C2_processing_cost_table.1 inputOutsource).2.1 rfl
    rw [h]
    simp [inputOutsource, jsOrInt, jsOrRat,
      CalculatorService.pricingValueField, CalculatorService.totalMonthlyClaimsVal,
      CalculatorService.monthlyPatients,
      CalculatorService.extractPatientVolume]; norm_num

/-- C3: the denial-rate lookup returns the documented constant for each of
the ten documented specialty keys, and `8.0` for every other key. -/
theorem C3_denial_rate_lookup :
    CalculatorService.estimateDenialRate "family_medicine" = 7.2 ∧
    CalculatorService.estimateDenialRate "internal_medicine" = 8.1 ∧
    CalculatorService.estimateDenialRate "pediatrics" = 6.8 ∧
    CalculatorService.estimateDenialRate "cardiology" = 9.3 ∧
    CalculatorService.estimateDenialRate "dermatology" = 5.9 ∧
    CalculatorService.estimateDenialRate "orthopedics" = 10.2 ∧
    CalculatorService.estimateDenialRate "dentistry" = 4.5 ∧
    CalculatorService.estimateDenialRate "ophthalmology" = 6.7 ∧
    CalculatorService.estimateDenialRate "psychiatry" = 8.9 ∧
    CalculatorService.estimateDenialRate "other" = 8.0 ∧
    ∀ s : String,
      s ∉ (["family_medicine", "internal_medicine", "pediatrics", "cardiology",
        "dermatology", "orthopedics", "dentistry", "ophthalmology", "psychiatry",
        "other"] : List String) →
      CalculatorService.estimateDenialRate s = 8.0 := by
  refine ⟨?_, ?_, ?_, ?_, ?_, ?_, ?_, ?_, ?_, ?_, ?_⟩
  · exact estimateDenialRate_eval (by simp [CalculatorService.denialRatesLookup]) (by norm_num)
  · exact estimateDenialRate_eval
      (by simp [CalculatorService.denialRatesLookup, String.reduceEq]) (by norm_num)
  · exact estimateDenialRate_eval
      (by simp [CalculatorService.denialRatesLookup, String.reduceEq]) (by norm_num)
  · exact estimateDenialRate_eval
      (by simp [CalculatorService.denialRatesLookup, String.reduceEq]) (by norm_num)
  · exact estimateDenialRate_eval
      (by simp [CalculatorService.denialRatesLookup, String.reduceEq]) (by norm_num)
  · exact estimateDenialRate_eval
      (by simp [CalculatorService.denialRatesLookup, String.reduceEq]) (by norm_num)
  · exact estimateDenialRate_eval
      (by simp [CalculatorService.denialRatesLookup, String.reduceEq]) (by norm_num)
  · exact estimateDenialRate_eval
      (by simp [CalculatorService.denialRatesLookup, String.reduceEq]) (by norm_num)
  · exact estimateDenialRate_eval
      (by simp [CalculatorService.denialRatesLookup, String.reduceEq]) (by norm_num)
  · exact estimateDenialRate_eval
      (by simp [CalculatorService.denialRatesLookup, String.reduceEq]) (by norm_num)
  · intro s hs
    simp only [List.mem_cons, List.not_mem_nil, or_false, not_or] at hs
    obtain ⟨h1, h2, h3, h4, h5, h6, h7, h8, h9, h10⟩ := hs
    norm_num [CalculatorService.estimateDenialRate, CalculatorService.denialRatesLookup,
      jsOrRat, h1, h2, h3, h4, h5, h6, h7, h8, h9, h10]

/-- C3 witness: the unknown-key default, instantiated at a key outside the
documented set. -/
theorem C3_denial_rate_lookup_witness :
    CalculatorService.estimateDenialRate "urology" = 8.0 :=
  C3_denial_rate_lookup.2.2.2.2.2.2.2.2.2.2 "urology" (by decide)

/-- C4 counterexample: with the know-denial-rate flag set to `yes` and a
user-supplied denial rate of `0`, the calculation reports `claimDenialRate
= 8`, not the supplied `0` — the `|| 8` fallback fires on the falsy value. -/
theorem C4_counterexample :
    inputDenialZero.knowDenialRate = "yes" ∧
    inputDenialZero.denialRate = some 0 ∧
    (CalculatorService.generateMockCalculation inputDenialZero).userMetrics.claimDenialRate
      = 8 := by
  refine ⟨rfl, rfl, ?_⟩
  show round1 (CalculatorService.extractDenialRate inputDenialZero) = 8
  have h : CalculatorService.extractDenialRate inputDenialZero = 8 := by
    simp [CalculatorService.extractDenialRate, inputDenialZero, jsOrRat]
  rw [h]
  show (jsRound ((8 : ℚ) * 10) : ℚ) / 10 = 8
  have h80 : jsRound ((8 : ℚ) * 10) = 80 := jsRound_eq (by norm_num) (by norm_num)
  rw [h80]
  norm_num

/-- C4 (amended): when the know-denial-rate flag equals `yes` and the
denialRate field parses to a nonzero value `x`, the calculation uses `x` and
reports `claimDenialRate = round1 x`; a missing, unparseable, or zero value
falls back to the default `8`. -/
theorem C4_known_denial_rate (f : FormData) (x : ℚ)
    (hyes : f.knowDenialRate = "yes") (hx : f.denialRate = some x) (hx0 : x ≠ 0) :
    CalculatorService.extractDenialRate f = x ∧
    (CalculatorService.generateMockCalculation f).userMetrics.claimDenialRate = round1 x := by
  have h : CalculatorService.extractDenialRate f = x := by
    simp [CalculatorService.extractDenialRate, hyes, hx, jsOrRat, hx0]
  refine ⟨h, ?_⟩
  show round1 (CalculatorService.extractDenialRate f) = round1 x
  rw [h]

/-- C4 witness: the amended statement at a concrete input with a nonzero
user-supplied denial rate. -/
theorem C4_known_denial_rate_witness :
    CalculatorService.extractDenialRate inputDenialKnown = 12 ∧
    (CalculatorService.generateMockCalculation inputDenialKnown).userMetrics.claimDenialRate
      = 12 := by
  have h := C4_known_denial_rate inputDenialKnown 12 rfl rfl (by norm_num)
  refine ⟨h.1, ?_⟩
  rw [h.2]
  show (jsRound ((12 : ℚ) * 10) : ℚ) / 10 = 12
  have h120 : jsRound ((12 : ℚ) * 10) = 120 := jsRound_eq (by norm_num) (by norm_num)
  rw [h120]
  norm_num

/-- C5: for every form input the reported `averageClaimPercentage` equals
`clamp(100 − denial rate, 60, 98)` rounded to one decimal, and always lies
in the interval `[60, 98]`. -/
theorem C5_claim_percentage_clamped (f : FormData) :
    (CalculatorService.generateMockCalculation f).userMetrics.averageClaimPercentage =
      round1 (max 60 (min 98 (100 - CalculatorService.extractDenialRate f))) ∧
    60 ≤ (CalculatorService.generateMockCalculation f).userMetrics.averageClaimPercentage ∧
    (CalculatorService.generateMockCalculation f).userMetrics.averageClaimPercentage ≤ 98 := by
  have hlb : ((60 : ℤ) : ℚ) ≤ CalculatorService.averageClaimPercentageVal f := by
    simp only [CalculatorService.averageClaimPercentageVal]
    push_cast
    exact le_max_left _ _
  have hub : CalculatorService.averageClaimPercentageVal f ≤ ((98 : ℤ) : ℚ) := by
    simp only [CalculatorService.averageClaimPercentageVal]
    push_cast
    exact max_le (by norm_num) (min_le_left _ _)
  refine ⟨rfl, ?_, ?_⟩
  · show (60 : ℚ) ≤ round1 (CalculatorService.averageClaimPercentageVal f)
    exact_mod_cast le_round1 hlb
  · show round1 (CalculatorService.averageClaimPercentageVal f) ≤ (98 : ℚ)
    exact_mod_cast round1_le hub

/-- C6: whenever the derived monthly claim count is positive, the reported
`costPerClaim` is the monthly processing cost divided by the claim count,
rounded to two decimals.  The division in the source is unguarded; in the
embedding it is the total `ℚ` division, and the same formula is what the
code computes for every input. -/
theorem C6_cost_per_claim (f : FormData)
    (_h : 0 < CalculatorService.totalMonthlyClaimsVal f) :
    (CalculatorService.generateMockCalculation f).userMetrics.costPerClaim =
      round2 (CalculatorService.monthlyProcessingCostVal f /
        (CalculatorService.totalMonthlyClaimsVal f : ℚ)) := rfl

/-- C6 witness: the cost-per-claim equation at the concrete outsourcing
input, whose claim count 100 is positive. -/
theorem C6_cost_per_claim_witness :
    0 < CalculatorService.totalMonthlyClaimsVal inputOutsource ∧
    (CalculatorService.generateMockCalculation inputOutsource).userMetrics.costPerClaim =
      round2 (CalculatorService.monthlyProcessingCostVal inputOutsource /
        (CalculatorService.totalMonthlyClaimsVal inputOutsource : ℚ)) :=
  ⟨by decide, C6_cost_per_claim inputOutsource (by decide)⟩

/-- C7: the calculation helper duplicated between the component and the
service computes the same `userMetrics` record on every form input. -/
theorem C7_component_service_agree (f : FormData) :
    (CalculatorService.generateMockCalculation f).userMetrics =
      (CalculatorComponent.generateMockCalculation f).userMetrics := rfl

/-- C8: the mock calculation never throws — `calculateMetrics` returns a
result on every form input and never takes the catch branch that rethrows
`"Failed to calculate metrics"`. -/
theorem C8_calculate_metrics_total (f : FormData) :
    CalculatorService.calculateMetrics f =
      Except.ok (CalculatorService.generateMockCalculation f) ∧
    ∀ e : String, CalculatorService.calculateMetrics f ≠ Except.error e :=
  ⟨rfl, fun _ h => Except.noConfusion h⟩

/-- C8 witness: the error branch is not taken at a concrete input. -/
theorem C8_calculate_metrics_total_witness :
    CalculatorService.calculateMetrics inputVolume100 ≠
      Except.error "Failed to calculate metrics" :=
  (C8_calculate_metrics_total inputVolume100).2 "Failed to calculate metrics"

/-- C9 counterexample: the component validator reports no error on the empty
value (the source returns `null` for every falsy control value before even
testing the regexes), yet the empty string matches neither ZIP nor PIN
pattern — so the two validators do not accept exactly the same strings. -/
theorem C9_counterexample :
    CalculatorComponent.zipCodeValidator "" = true ∧
    matchesUsZip "" = false ∧
    matchesIndianPin "" = false ∧
    CalculatorService.validateLocation "" = false := by decide

/-- C9 (amended): the service validator accepts exactly the strings matching
the US 5-digit or 5+4-digit ZIP pattern or the 6-digit PIN pattern, and it
accepts `12345`, `12345-6789` and `560001` and rejects `abc12` and `1234`;
the component validator agrees with it on every nonempty value and in
addition reports no error on the empty value (left to the `required`
validator). -/
theorem C9_zip_validation :
    (∀ s : String,
      CalculatorService.validateLocation s = (matchesUsZip s || matchesIndianPin s)) ∧
    (∀ s : String, s ≠ "" →
      CalculatorComponent.zipCodeValidator s = CalculatorService.validateLocation s) ∧
    CalculatorService.validateLocation "12345" = true ∧
    CalculatorService.validateLocation "12345-6789" = true ∧
    CalculatorService.validateLocation "560001" = true ∧
    CalculatorService.validateLocation "abc12" = false ∧
    CalculatorService.validateLocation "1234" = false ∧
    CalculatorComponent.zipCodeValidator "12345" = true ∧
    CalculatorComponent.zipCodeValidator "12345-6789" = true ∧
    CalculatorComponent.zipCodeValidator "560001" = true ∧
    CalculatorComponent.zipCodeValidator "abc12" = false ∧
    CalculatorComponent.zipCodeValidator "1234" = false ∧
    CalculatorComponent.zipCodeValidator "" = true := by
  refine ⟨fun s => rfl, fun s hs => ?_, by decide, by decide, by decide, by decide,
    by decide, by decide, by decide, by decide, by decide, by decide, by decide⟩
  simp [CalculatorComponent.zipCodeValidator, CalculatorService.validateLocation, hs]

/-- C9 witness: the component and service validators agree at a concrete
nonempty value. -/
theorem C9_zip_validation_witness :
    CalculatorComponent.zipCodeValidator "99999" =
      CalculatorService.validateLocation "99999" :=
  C9_zip_validation.2.1 "99999" (by decide)

/-- C10 counterexample: starting from step 1 with every form control valid,
three `nextStep` calls drive `currentStep` to 4 — the method never checks an
upper bound, and steps above 3 list no fields, so their validation passes
vacuously; `currentStep` does not always stay within 1..3. -/
theorem C10_counterexample :
    CalculatorComponent.runSteps (fun _ => true)
      [CalculatorComponent.StepOp.next, CalculatorComponent.StepOp.next,
        CalculatorComponent.StepOp.next] 1 = 4 ∧
    ¬(CalculatorComponent.runSteps (fun _ => true)
      [CalculatorComponent.StepOp.next, CalculatorComponent.StepOp.next,
        CalculatorComponent.StepOp.next] 1 ≤ 3) := by decide

/-- C10 (amended): `nextStep` advances by one exactly when every field of
the current step is valid (steps outside 1..3 list no fields, so their
validation is vacuously true), `previousStep` decrements only when the step
exceeds 1, `resetCalculator` returns to step 1, and along every action
sequence from a step ≥ 1 the step stays ≥ 1; there is no upper bound. -/
theorem C10_stepper_linear_state :
    (∀ (valid : String → Bool) (s : ℤ),
      CalculatorComponent.nextStep valid s ≠ s →
        CalculatorComponent.validateCurrentStep valid s = true ∧
        CalculatorComponent.nextStep valid s = s + 1) ∧
    (∀ (valid : String → Bool) (s : ℤ),
      CalculatorComponent.validateCurrentStep valid s = true →
        CalculatorComponent.nextStep valid s = s + 1) ∧
    (∀ s : ℤ, CalculatorComponent.previousStep s ≠ s →
      1 < s ∧ CalculatorComponent.previousStep s = s - 1) ∧
    (∀ (valid : String → Bool) (s : ℤ),
      CalculatorComponent.stepAfter valid s CalculatorComponent.StepOp.reset = 1) ∧
    (∀ (valid : String → Bool) (ops : List CalculatorComponent.StepOp) (s : ℤ),
      1 ≤ s → 1 ≤ CalculatorComponent.runSteps valid ops s) := by
  refine ⟨?_, ?_, ?_, fun _ _ => rfl, ?_⟩
  · intro valid s h
    by_cases hv : CalculatorComponent.validateCurrentStep valid s = true
    · exact ⟨hv, by simp [CalculatorComponent.nextStep, hv]⟩
    · exact absurd (by simp [CalculatorComponent.nextStep, hv]) h
  · intro valid s hv
    simp [CalculatorComponent.nextStep, hv]
  · intro s h
    by_cases h1 : 1 < s
    · exact ⟨h1, by simp [CalculatorComponent.previousStep, h1]⟩
    · exact absurd (by simp [CalculatorComponent.previousStep, h1]) h
  · intro valid ops
    induction ops with
    | nil => intro s hs; simpa [CalculatorComponent.runSteps] using hs
    | cons op rest ih =>
        intro s hs
        have hstep : 1 ≤ CalculatorComponent.stepAfter valid s op := by
          cases op with
          | next =>
              simp only [CalculatorComponent.stepAfter, CalculatorComponent.nextStep]
              split <;> omega
          | prev =>
              simp only [CalculatorComponent.stepAfter, CalculatorComponent.previousStep]
              split <;> omega
          | reset => simp [CalculatorComponent.stepAfter]
        have hc : CalculatorComponent.runSteps valid (op :: rest) s =
            CalculatorComponent.runSteps valid rest
              (CalculatorComponent.stepAfter valid s op) := rfl
        rw [hc]
        exact ih _ hstep

/-- C10 witness: the three transitions at concrete steps, and the ≥ 1
invariant along a concrete action sequence. -/
theorem C10_stepper_linear_state_witness :
    (CalculatorComponent.validateCurrentStep (fun _ => true) 1 = true ∧
      CalculatorComponent.nextStep (fun _ => true) 1 = 1 + 1) ∧
    (1 < (2 : ℤ) ∧ CalculatorComponent.previousStep 2 = 2 - 1) ∧
    1 ≤ CalculatorComponent.runSteps (fun _ => true)
      [CalculatorComponent.StepOp.next, CalculatorComponent.StepOp.prev,
        CalculatorComponent.StepOp.reset] 1 := by
  refine ⟨C10_stepper_linear_state.1 (fun _ => true) 1 (by decide),
    C10_stepper_linear_state.2.2.1 2 (by decide),
    C10_stepper_linear_state.2.2.2.2 (fun _ => true) _ 1 (by norm_num)⟩

end RCM
